import Mathlib

/-!
Verification of the settings module of the obsidian-homepage plugin.

The repository holds two versions of the same settings file:
`src/src/settings.ts` (embedded in namespace `ST` below) and
`src/unnamed/part_000` (embedded in namespace `P0`). Pure helpers used by
both are defined first.
-/

namespace Homepage

/-- Characters matched by the JavaScript regex class \s (ECMAScript
whitespace and line terminators), used by the blank-note regex in
`sanitiseNote`. -/
def isJsWhitespace (c : Char) : Bool :=
  c.val = 0x9 || c.val = 0xA || c.val = 0xB || c.val = 0xC || c.val = 0xD ||
  c.val = 0x20 || c.val = 0xA0 || c.val = 0x1680 ||
  (0x2000 ≤ c.val && c.val ≤ 0x200A) ||
  c.val = 0x2028 || c.val = 0x2029 || c.val = 0x202F || c.val = 0x205F ||
  c.val = 0x3000 || c.val = 0xFEFF

/-- Whether `value.match(/^\s*$/) !== null` holds: the whole string consists
of JS whitespace characters (true for the empty string). -/
def matchesBlankRe (s : String) : Bool :=
  s.toList.all isJsWhitespace

/-- Whether the character list `q` occurs at the front of `s`. -/
def leadsWith : List Char → List Char → Bool
  | [], _ => true
  | _ :: _, [] => false
  | a :: as, b :: bs => a == b && leadsWith as bs

/-- Whether the character list `q` occurs contiguously inside `s`. -/
def containsSeq : List Char → List Char → Bool
  | q, [] => leadsWith q []
  | q, c :: rest => leadsWith q (c :: rest) || containsSeq q rest

/-- JavaScript `s.contains(q)` / `s.includes(q)`: `q` is a substring of `s`. -/
def containsStr (s q : String) : Bool :=
  containsSeq q.toList s.toList

/-- JavaScript `s.toLowerCase()`, modelled characterwise with the ASCII
lowercasing of Char.toLower. -/
def toLowerStr (s : String) : String :=
  String.mk (s.toList.map Char.toLower)

/-- JavaScript `x || d` specialised to a nullable string `x`: both `null`
and the empty string are falsy and select the default `d`. -/
def jsOrString (x : Option String) (d : String) : String :=
  match x with
  | none => d
  | some s => if s = "" then d else s

/-- The `Mode` string enum of settings.ts / part_000 (identical in both). -/
inductive Mode where
  | ReplaceAll
  | ReplaceLast
  | Retain
deriving DecidableEq

/-- The string value of each `Mode` member. -/
def Mode.value : Mode → String
  | .ReplaceAll => "Replace all open notes"
  | .ReplaceLast => "Replace last note"
  | .Retain => "Keep open notes"

/-- JavaScript `Object.values(Mode)`: the member values in declaration order. -/
def Mode.values : List String :=
  [Mode.ReplaceAll.value, Mode.ReplaceLast.value, Mode.Retain.value]

/-- The `View` string enum of settings.ts / part_000 (identical in both). -/
inductive View where
  | Default
  | Reading
  | Source
  | LivePreview
deriving DecidableEq

/-- The string value of each `View` member. -/
def View.value : View → String
  | .Default => "Default view"
  | .Reading => "Reading view"
  | .Source => "Editing view (Source)"
  | .LivePreview => "Editing view (Live Preview)"

/-- JavaScript `Object.values(View)`: the member values in declaration order. -/
def View.values : List String :=
  [View.Default.value, View.Reading.value, View.Source.value, View.LivePreview.value]

namespace ST

/-- The `HomepageSettings` interface of src/src/settings.ts. -/
structure HomepageSettings where
  version : Nat
  defaultNote : String
  useMoment : Bool
  momentFormat : String
  workspace : String
  workspaceEnabled : Bool
  hasRibbonIcon : Bool
  openMode : String
  manualOpenMode : String
  view : String
  revertView : Bool
  refreshDataview : Bool
  autoCreate : Bool
  pin : Bool
deriving DecidableEq

/-- The `DEFAULT` settings record of src/src/settings.ts. -/
def DEFAULT : HomepageSettings where
  version := 2
  defaultNote := "Home"
  useMoment := false
  momentFormat := "YYYY-MM-DD"
  workspace := "Home"
  workspaceEnabled := false
  hasRibbonIcon := true
  openMode := Mode.ReplaceAll.value
  manualOpenMode := Mode.Retain.value
  view := View.Default.value
  revertView := true
  refreshDataview := false
  autoCreate := true
  pin := false

/-- HomepageSettingTab.sanitiseNote of src/src/settings.ts. A null or
whitespace-only value yields null; otherwise the host normalizePath
(passed in as a parameter, since it lives in the host application) is
applied to the value. -/
def sanitiseNote (normalizePath : String → String) (value : Option String) : Option String :=
  match value with
  | none => none
  | some v => if matchesBlankRe v then none else some (normalizePath v)

end ST

namespace P0

/-- The `HomepageSettings` interface of src/unnamed/part_000 (adds
`openOnStartup` and `autoScroll` to the settings.ts version). -/
structure HomepageSettings where
  version : Nat
  defaultNote : String
  useMoment : Bool
  momentFormat : String
  workspace : String
  workspaceEnabled : Bool
  openOnStartup : Bool
  hasRibbonIcon : Bool
  openMode : String
  manualOpenMode : String
  view : String
  revertView : Bool
  refreshDataview : Bool
  autoCreate : Bool
  autoScroll : Bool
  pin : Bool
deriving DecidableEq

/-- The `DEFAULT` settings record of src/unnamed/part_000. -/
def DEFAULT : HomepageSettings where
  version := 2
  defaultNote := "Home"
  useMoment := false
  momentFormat := "YYYY-MM-DD"
  workspace := "Home"
  workspaceEnabled := false
  openOnStartup := true
  hasRibbonIcon := true
  openMode := Mode.ReplaceAll.value
  manualOpenMode := Mode.Retain.value
  view := View.Default.value
  revertView := true
  refreshDataview := false
  autoCreate := true
  autoScroll := false
  pin := false

/-- HomepageSettingTab.sanitiseNote of src/unnamed/part_000 (its body is
textually identical to the settings.ts version). -/
def sanitiseNote (normalizePath : String → String) (value : Option String) : Option String :=
  match value with
  | none => none
  | some v => if matchesBlankRe v then none else some (normalizePath v)

end P0

/-- The host vault file objects relevant to FileSuggest: a TFile has a
vault path and an extension. -/
structure TFile where
  path : String
  extension : String
deriving DecidableEq

/-- Modelled from the spec and the host API: a TFile also exposes a display
name, the final component of its path. It is absent from the sources (only
the host defines it); it is the notion of a file's "name"/title that
suggestion rendering via trimFile displays. -/
def TFile.name (f : TFile) : String :=
  String.mk (f.path.toList.foldl (fun acc c => if c = '/' then [] else acc ++ [c]) [])

/-- A TAbstractFile returned by vault.getAllLoadedFiles is either a TFile
or some other entry (a folder); the instanceof TFile test distinguishes
them. -/
inductive TAbstractFile where
  | file (f : TFile)
  | folder (path : String)
deriving DecidableEq

/-- FileSuggest.getSuggestions of src/src/settings.ts: iterate over the
loaded vault entries, pushing every TFile whose extension is "md" and
whose lowercased path contains the lowercased input. The vault list is a
parameter, since the vault lives in the host application. -/
def fileGetSuggestions (abstractFiles : List TAbstractFile) (inputStr : String) : List TFile :=
  abstractFiles.foldl (fun files file =>
    match file with
    | TAbstractFile.file f =>
        if f.extension = "md" && containsStr (toLowerStr f.path) (toLowerStr inputStr) then
          files ++ [f]
        else files
    | TAbstractFile.folder _ => files) []

/-- WorkspaceSuggest.getSuggestions of src/src/settings.ts: keep the
workspace names whose lowercased form contains the lowercased input. The
workspace-name list is a parameter, since the workspaces plugin lives in
the host application. -/
def workspaceGetSuggestions (workspaces : List String) (inputStr : String) : List String :=
  workspaces.filter (fun workspace => containsStr (toLowerStr workspace) (toLowerStr inputStr))

/-- The state of a host dropdown component: the option values added so far
and the currently selected value. -/
structure DropdownComponent where
  options : List String
  selected : String
deriving DecidableEq

/-- dropdown.addOption k k of the host API: appends an option value. -/
def DropdownComponent.addOption (d : DropdownComponent) (value : String) : DropdownComponent :=
  { d with options := d.options ++ [value] }

/-- dropdown.setValue of the host API: sets the selected value. -/
def DropdownComponent.setValue (d : DropdownComponent) (v : String) : DropdownComponent :=
  { d with selected := v }

/-- The dropdown-population loop of addDropdown (identical in both
versions): add one option per enum value in order, then select the stored
setting value. -/
def buildDropdown (source : List String) (stored : String) : DropdownComponent :=
  DropdownComponent.setValue
    (source.foldl (fun d k => d.addOption k) { options := [], selected := "" }) stored

/-- A form control rendered by HomepageSettingTab.display, abstracted to
the data the display logic binds to it (descriptions and styling are
omitted). Setting keys are the string keys the source passes. -/
inductive Control where
  | warningBanner
  | momentFormatField (defaultFormat : String) (value : String)
  | homepageTextField (placeholder : String) (value : String)
  | toggle (name : String) (settingKey : String) (value : Bool)
  | dropdownCtl (name : String) (settingKey : String) (comp : DropdownComponent)
  | heading (name : String)
deriving DecidableEq

/-- Whether a control is one of the two homepage-entry controls. -/
def Control.isHomepageEntry : Control → Bool
  | .momentFormatField _ _ => true
  | .homepageTextField _ _ => true
  | _ => false

/-- Whether a control is the Moment date-format field. -/
def Control.isMomentField : Control → Bool
  | .momentFormatField _ _ => true
  | _ => false

/-- Whether a control is the plain homepage text field. -/
def Control.isTextEntryField : Control → Bool
  | .homepageTextField _ _ => true
  | _ => false

namespace ST

/-- The value display puts into the homepage text field:
DEFAULT[homepage] == settings[homepage] ? "" : settings[homepage]. -/
def homepageFieldValue (workspacesMode : Bool) (s : HomepageSettings) : String :=
  if workspacesMode then
    (if DEFAULT.workspace = s.workspace then "" else s.workspace)
  else
    (if DEFAULT.defaultNote = s.defaultNote then "" else s.defaultNote)

/-- HomepageSettingTab.display of src/src/settings.ts, as the ordered list
of controls it renders. Host conditions (workspaces mode, Daily Notes
autorun, workspaces plugin enabled, Dataview present) are parameters; the
styling-only steps (hiding, CSS) are omitted. -/
def display (workspacesMode dailynotesAutorun workspacePluginEnabled dataviewEnabled : Bool)
    (s : HomepageSettings) : List Control :=
  (if dailynotesAutorun then [Control.warningBanner] else []) ++
  (if s.useMoment && !workspacesMode then
    [Control.momentFormatField "YYYY-MM-DD" s.momentFormat]
  else
    [Control.homepageTextField (if workspacesMode then DEFAULT.workspace else DEFAULT.defaultNote)
      (homepageFieldValue workspacesMode s)]) ++
  [Control.toggle "Use date formatting" "useMoment" s.useMoment] ++
  (if workspacePluginEnabled then
    [Control.toggle "Use workspaces" "workspaceEnabled" s.workspaceEnabled]
  else []) ++
  [Control.toggle "Display ribbon icon" "hasRibbonIcon" s.hasRibbonIcon,
   Control.dropdownCtl "Homepage view" "view" (buildDropdown View.values s.view),
   Control.toggle "Revert view on close" "revertView" s.revertView,
   Control.dropdownCtl "Opening method" "openMode" (buildDropdown Mode.values s.openMode),
   Control.dropdownCtl "Manual opening method" "manualOpenMode"
     (buildDropdown Mode.values s.manualOpenMode),
   Control.toggle "Auto-create" "autoCreate" s.autoCreate,
   Control.toggle "Pin" "pin" s.pin] ++
  (if dataviewEnabled then
    [Control.toggle "Refresh Dataview" "refreshDataview" s.refreshDataview]
  else [])

end ST

namespace P0

/-- The value display puts into the homepage text field in part_000
(same expression as in settings.ts). -/
def homepageFieldValue (workspacesMode : Bool) (s : HomepageSettings) : String :=
  if workspacesMode then
    (if DEFAULT.workspace = s.workspace then "" else s.workspace)
  else
    (if DEFAULT.defaultNote = s.defaultNote then "" else s.defaultNote)

/-- HomepageSettingTab.display of src/unnamed/part_000, as the ordered list
of controls it renders. The dailynotesAutorun flag only adds a warning note
and disables controls (styling), so it does not change the control list. -/
def display (workspacesMode dailynotesAutorun workspacePluginEnabled dataviewEnabled : Bool)
    (s : HomepageSettings) : List Control :=
  (if s.useMoment && !workspacesMode then
    [Control.momentFormatField "YYYY-MM-DD" s.momentFormat]
  else
    [Control.homepageTextField (if workspacesMode then DEFAULT.workspace else DEFAULT.defaultNote)
      (homepageFieldValue workspacesMode s)]) ++
  [Control.toggle "Use date formatting" "useMoment" s.useMoment] ++
  (if workspacePluginEnabled then
    [Control.toggle "Use workspaces" "workspaceEnabled" s.workspaceEnabled]
  else []) ++
  [Control.toggle "Open on startup" "openOnStartup" s.openOnStartup,
   Control.toggle "Use ribbon icon" "hasRibbonIcon" s.hasRibbonIcon,
   Control.heading "Vault environment",
   Control.dropdownCtl "Opening method" "openMode" (buildDropdown Mode.values s.openMode),
   Control.dropdownCtl "Manual opening method" "manualOpenMode"
     (buildDropdown Mode.values s.manualOpenMode),
   Control.toggle "Auto-create" "autoCreate" s.autoCreate,
   Control.toggle "Pin" "pin" s.pin,
   Control.heading "Pane",
   Control.dropdownCtl "Homepage view" "view" (buildDropdown View.values s.view),
   Control.toggle "Revert view on close" "revertView" s.revertView,
   Control.toggle "Auto-scroll" "autoScroll" s.autoScroll] ++
  (if dataviewEnabled then
    [Control.toggle "Refresh Dataview" "refreshDataview" s.refreshDataview]
  else [])

end P0

/-- The setting keys of the part_000 preferences record, one per field of
its HomepageSettings interface. -/
inductive SettingKey where
  | version
  | defaultNote
  | useMoment
  | momentFormat
  | workspace
  | workspaceEnabled
  | openOnStartup
  | hasRibbonIcon
  | openMode
  | manualOpenMode
  | view
  | revertView
  | refreshDataview
  | autoCreate
  | autoScroll
  | pin
deriving DecidableEq

/-- A primitive setting value: string, boolean, or number. -/
inductive SettingValue where
  | strVal (s : String)
  | boolVal (b : Bool)
  | natVal (n : Nat)
deriving DecidableEq

namespace P0

/-- Observation of one field of the preferences record by key. -/
def getSetting (s : HomepageSettings) : SettingKey → SettingValue
  | .version => .natVal s.version
  | .defaultNote => .strVal s.defaultNote
  | .useMoment => .boolVal s.useMoment
  | .momentFormat => .strVal s.momentFormat
  | .workspace => .strVal s.workspace
  | .workspaceEnabled => .boolVal s.workspaceEnabled
  | .openOnStartup => .boolVal s.openOnStartup
  | .hasRibbonIcon => .boolVal s.hasRibbonIcon
  | .openMode => .strVal s.openMode
  | .manualOpenMode => .strVal s.manualOpenMode
  | .view => .strVal s.view
  | .revertView => .boolVal s.revertView
  | .refreshDataview => .boolVal s.refreshDataview
  | .autoCreate => .boolVal s.autoCreate
  | .autoScroll => .boolVal s.autoScroll
  | .pin => .boolVal s.pin

/-- Modelled from the spec: plugin.saveSettings (defined in main.ts, which
is absent from the sources) persists the whole preferences record via the
host plugin-data storage; it saves the record wholesale and alters no
field, so it is embedded as returning the record it persists unchanged. -/
def saveSettings (s : HomepageSettings) : HomepageSettings := s

/-- The boolean settings fields that display binds a toggle to via
addToggle (the string keys passed at each addToggle call site). -/
inductive ToggleKey where
  | useMoment
  | workspaceEnabled
  | openOnStartup
  | hasRibbonIcon
  | revertView
  | autoScroll
  | autoCreate
  | pin
  | refreshDataview
deriving DecidableEq

/-- The settings-record key a toggle key denotes. -/
def ToggleKey.key : ToggleKey → SettingKey
  | .useMoment => .useMoment
  | .workspaceEnabled => .workspaceEnabled
  | .openOnStartup => .openOnStartup
  | .hasRibbonIcon => .hasRibbonIcon
  | .revertView => .revertView
  | .autoScroll => .autoScroll
  | .autoCreate => .autoCreate
  | .pin => .pin
  | .refreshDataview => .refreshDataview

/-- The onChange handler addToggle installs: this.settings[setting] = value
followed by saveSettings. The optional callback (re-rendering the tab,
setting the ribbon icon, or setting view reversion) acts on the host UI and
plugin, not on the preferences record, so it has no effect here. -/
def toggleOnChange (k : ToggleKey) (value : Bool) (s : HomepageSettings) : HomepageSettings :=
  saveSettings (match k with
    | .useMoment => { s with useMoment := value }
    | .workspaceEnabled => { s with workspaceEnabled := value }
    | .openOnStartup => { s with openOnStartup := value }
    | .hasRibbonIcon => { s with hasRibbonIcon := value }
    | .revertView => { s with revertView := value }
    | .autoScroll => { s with autoScroll := value }
    | .autoCreate => { s with autoCreate := value }
    | .pin => { s with pin := value }
    | .refreshDataview => { s with refreshDataview := value })

/-- The string settings fields that display binds a dropdown to via
addDropdown. -/
inductive DropdownKey where
  | openMode
  | manualOpenMode
  | view
deriving DecidableEq

/-- The settings-record key a dropdown key denotes. -/
def DropdownKey.key : DropdownKey → SettingKey
  | .openMode => .openMode
  | .manualOpenMode => .manualOpenMode
  | .view => .view

/-- The onChange handler addDropdown installs: this.settings[setting] =
option followed by saveSettings. -/
def dropdownOnChange (k : DropdownKey) (option : String) (s : HomepageSettings) : HomepageSettings :=
  saveSettings (match k with
    | .openMode => { s with openMode := option }
    | .manualOpenMode => { s with manualOpenMode := option }
    | .view => { s with view := option })

/-- The onChange handler of the homepage text field:
this.settings[homepage] = this.sanitiseNote(value) || DEFAULT[homepage],
followed by saveSettings, where homepage is "workspace" in workspaces mode
and "defaultNote" otherwise. -/
def textOnChange (normalizePath : String → String) (workspacesMode : Bool) (value : String)
    (s : HomepageSettings) : HomepageSettings :=
  saveSettings (if workspacesMode then
    { s with workspace := jsOrString (sanitiseNote normalizePath (some value)) DEFAULT.workspace }
  else
    { s with defaultNote := jsOrString (sanitiseNote normalizePath (some value)) DEFAULT.defaultNote })

end P0

/-! Theorems -/

/-- C1 counterexample: on the whitespace-only input " ", sanitiseNote does
not yield the default value ("Home", both as default note and as default
workspace); it yields null. -/
theorem sanitiseNote_blank_counterexample :
    ST.sanitiseNote (fun v => v) (some " ") ≠ some ST.DEFAULT.defaultNote ∧
    ST.sanitiseNote (fun v => v) (some " ") ≠ some ST.DEFAULT.workspace ∧
    ST.sanitiseNote (fun v => v) (some " ") = none := by
  decide

/-- C1 (amended): for every blank or whitespace-only input string,
sanitiseNote yields null (not the default value); the default value is then
substituted by the change handler's JavaScript or-fallback, which maps the
null result to the default. -/
theorem sanitiseNote_blank_yields_none (normalizePath : String → String) (v : String)
    (h : matchesBlankRe v = true) :
    ST.sanitiseNote normalizePath (some v) = none ∧
    jsOrString (ST.sanitiseNote normalizePath (some v)) ST.DEFAULT.defaultNote
      = ST.DEFAULT.defaultNote ∧
    jsOrString (ST.sanitiseNote normalizePath (some v)) ST.DEFAULT.workspace
      = ST.DEFAULT.workspace := by
  simp [ST.sanitiseNote, h, jsOrString]

/-- Witness for C1 at the concrete input " ". -/
theorem sanitiseNote_blank_yields_none_witness :
    ST.sanitiseNote (fun v => v) (some " ") = none :=
  (sanitiseNote_blank_yields_none (fun v => v) " " (by decide)).1

/-- C2: for every input string containing at least one non-whitespace
character, sanitiseNote returns the host-normalized path of that string and
does not fall back to any other value. -/
theorem sanitiseNote_nonblank_normalizes (normalizePath : String → String) (v : String)
    (h : v.toList.any (fun c => ! isJsWhitespace c) = true) :
    ST.sanitiseNote normalizePath (some v) = some (normalizePath v) := by
  have hall : matchesBlankRe v = false := by
    unfold matchesBlankRe
    cases hA : v.toList.all isJsWhitespace with
    | false => rfl
    | true =>
      obtain ⟨c, hc, hneg⟩ := List.any_eq_true.mp h
      have hw := List.all_eq_true.mp hA c hc
      rw [hw] at hneg
      simp at hneg
  simp [ST.sanitiseNote, hall]

/-- Witness for C2 at the concrete input "Home Base". -/
theorem sanitiseNote_nonblank_normalizes_witness :
    ST.sanitiseNote (fun v => v) (some "Home Base") = some "Home Base" :=
  sanitiseNote_nonblank_normalizes (fun v => v) "Home Base" (by decide)

/-- C3: for every blank or whitespace-only input to the homepage text
field's change handler, the update is total (the embedded handler returns a
settings record, with no error channel, matching the source's lack of any
failure path) and the stored homepage setting — workspace in workspaces
mode, defaultNote otherwise — ends up equal to its default value. -/
theorem blank_text_onchange_stores_default (normalizePath : String → String)
    (s : P0.HomepageSettings) (v : String) (h : matchesBlankRe v = true) :
    (P0.textOnChange normalizePath true v s).workspace = P0.DEFAULT.workspace ∧
    (P0.textOnChange normalizePath false v s).defaultNote = P0.DEFAULT.defaultNote := by
  simp [P0.textOnChange, P0.saveSettings, P0.sanitiseNote, h, jsOrString]

/-- Witness for C3 at the concrete blank input "" on the default record. -/
theorem blank_text_onchange_stores_default_witness :
    (P0.textOnChange (fun v => v) true "" P0.DEFAULT).workspace = P0.DEFAULT.workspace ∧
    (P0.textOnChange (fun v => v) false "" P0.DEFAULT).defaultNote = P0.DEFAULT.defaultNote :=
  blank_text_onchange_stores_default (fun v => v) P0.DEFAULT "" (by decide)

/-- C7: the DEFAULT preferences record binds every schema field to a
primitive value: note name and workspace name, date-format string, startup
toggles, view choice, and pin, auto-create and auto-scroll flags, plus the
integer schema version 2. Stated for the part_000 record (whose schema the
spec enumerates, including auto-scroll) and for the earlier settings.ts
record over its own schema. -/
theorem default_record_fields :
    P0.DEFAULT.version = 2 ∧ P0.DEFAULT.defaultNote = "Home" ∧ P0.DEFAULT.workspace = "Home" ∧
    P0.DEFAULT.useMoment = false ∧ P0.DEFAULT.momentFormat = "YYYY-MM-DD" ∧
    P0.DEFAULT.workspaceEnabled = false ∧ P0.DEFAULT.openOnStartup = true ∧
    P0.DEFAULT.hasRibbonIcon = true ∧ P0.DEFAULT.openMode = Mode.ReplaceAll.value ∧
    P0.DEFAULT.manualOpenMode = Mode.Retain.value ∧ P0.DEFAULT.view = View.Default.value ∧
    P0.DEFAULT.revertView = true ∧ P0.DEFAULT.refreshDataview = false ∧
    P0.DEFAULT.autoCreate = true ∧ P0.DEFAULT.autoScroll = false ∧ P0.DEFAULT.pin = false ∧
    ST.DEFAULT.version = 2 ∧ ST.DEFAULT.defaultNote = "Home" ∧ ST.DEFAULT.workspace = "Home" ∧
    ST.DEFAULT.useMoment = false ∧ ST.DEFAULT.momentFormat = "YYYY-MM-DD" ∧
    ST.DEFAULT.workspaceEnabled = false ∧ ST.DEFAULT.hasRibbonIcon = true ∧
    ST.DEFAULT.openMode = Mode.ReplaceAll.value ∧ ST.DEFAULT.manualOpenMode = Mode.Retain.value ∧
    ST.DEFAULT.view = View.Default.value ∧ ST.DEFAULT.revertView = true ∧
    ST.DEFAULT.refreshDataview = false ∧ ST.DEFAULT.autoCreate = true ∧
    ST.DEFAULT.pin = false :=
  ⟨rfl, rfl, rfl, rfl, rfl, rfl, rfl, rfl, rfl, rfl, rfl, rfl, rfl, rfl, rfl, rfl,
   rfl, rfl, rfl, rfl, rfl, rfl, rfl, rfl, rfl, rfl, rfl, rfl, rfl, rfl⟩

/-- C8: the sanitiseNote operations of the two source versions are
extensionally equal, on every input including null. -/
theorem sanitiseNote_versions_agree (normalizePath : String → String) (value : Option String) :
    ST.sanitiseNote normalizePath value = P0.sanitiseNote normalizePath value := rfl

/-- C6: every change handler mutates exactly the one settings field it is
bound to. For every toggle, dropdown, and homepage-text interaction, every
field other than the bound one is unchanged, and the persistence step
(saveSettings, which saves the whole record) alters no field at all. -/
theorem handlers_mutate_only_bound_field :
    (∀ (k : P0.ToggleKey) (v : Bool) (s : P0.HomepageSettings) (k2 : SettingKey),
      k2 ≠ k.key → P0.getSetting (P0.toggleOnChange k v s) k2 = P0.getSetting s k2) ∧
    (∀ (k : P0.DropdownKey) (v : String) (s : P0.HomepageSettings) (k2 : SettingKey),
      k2 ≠ k.key → P0.getSetting (P0.dropdownOnChange k v s) k2 = P0.getSetting s k2) ∧
    (∀ (normalizePath : String → String) (wm : Bool) (v : String) (s : P0.HomepageSettings)
      (k2 : SettingKey),
      k2 ≠ (if wm then SettingKey.workspace else SettingKey.defaultNote) →
      P0.getSetting (P0.textOnChange normalizePath wm v s) k2 = P0.getSetting s k2) ∧
    (∀ (s : P0.HomepageSettings) (k : SettingKey),
      P0.getSetting (P0.saveSettings s) k = P0.getSetting s k) := by
  refine ⟨?_, ?_, ?_, ?_⟩
  · intro k v s k2 h
    cases k <;> cases k2 <;> first | rfl | exact absurd rfl h
  · intro k v s k2 h
    cases k <;> cases k2 <;> first | rfl | exact absurd rfl h
  · intro normalizePath wm v s k2 h
    cases wm <;> cases k2 <;> first | rfl | exact absurd rfl h
  · intro s k
    rfl

/-- Witness for C6: concrete interactions (toggling pin, selecting a view,
entering a homepage name) each leave another field untouched. -/
theorem handlers_mutate_only_bound_field_witness :
    P0.getSetting (P0.toggleOnChange P0.ToggleKey.pin true P0.DEFAULT) SettingKey.defaultNote
      = P0.getSetting P0.DEFAULT SettingKey.defaultNote ∧
    P0.getSetting (P0.dropdownOnChange P0.DropdownKey.view "Reading view" P0.DEFAULT)
        SettingKey.pin
      = P0.getSetting P0.DEFAULT SettingKey.pin ∧
    P0.getSetting (P0.textOnChange (fun v => v) false "Notes" P0.DEFAULT) SettingKey.workspace
      = P0.getSetting P0.DEFAULT SettingKey.workspace :=
  ⟨handlers_mutate_only_bound_field.1 P0.ToggleKey.pin true P0.DEFAULT
      SettingKey.defaultNote (by decide),
   handlers_mutate_only_bound_field.2.1 P0.DropdownKey.view "Reading view" P0.DEFAULT
      SettingKey.pin (by decide),
   handlers_mutate_only_bound_field.2.2.1 (fun v => v) false "Notes" P0.DEFAULT
      SettingKey.workspace (by simp)⟩

/-- C5: in both display versions and for every settings state and host
condition, exactly one of the two homepage-entry controls is rendered, and
it is the Moment date-format control precisely when useMoment is true and
workspaces mode is false; otherwise it is the plain homepage text field. -/
theorem display_homepage_entry_exclusive :
    (∀ (wm dn wp dv : Bool) (s : ST.HomepageSettings),
      ((ST.display wm dn wp dv s).filter Control.isHomepageEntry).length = 1 ∧
      (ST.display wm dn wp dv s).any Control.isMomentField = (s.useMoment && !wm) ∧
      (ST.display wm dn wp dv s).any Control.isTextEntryField = !(s.useMoment && !wm)) ∧
    (∀ (wm dn wp dv : Bool) (s : P0.HomepageSettings),
      ((P0.display wm dn wp dv s).filter Control.isHomepageEntry).length = 1 ∧
      (P0.display wm dn wp dv s).any Control.isMomentField = (s.useMoment && !wm) ∧
      (P0.display wm dn wp dv s).any Control.isTextEntryField = !(s.useMoment && !wm)) := by
  constructor
  · intro wm dn wp dv s
    cases hum : s.useMoment <;> cases wm <;> cases dn <;> cases wp <;> cases dv <;>
      simp [ST.display, hum, Control.isHomepageEntry, Control.isMomentField,
        Control.isTextEntryField]
  · intro wm dn wp dv s
    cases hum : s.useMoment <;> cases wm <;> cases dn <;> cases wp <;> cases dv <;>
      simp [P0.display, hum, Control.isHomepageEntry, Control.isMomentField,
        Control.isTextEntryField]

/-- The option-population loop appends the source values, in order, to the
options accumulated so far. -/
lemma foldl_addOption_options (source : List String) :
    ∀ (d : DropdownComponent),
      (source.foldl (fun d k => d.addOption k) d).options = d.options ++ source := by
  induction source with
  | nil => intro d; simp
  | cons a as ih =>
    intro d
    rw [List.foldl_cons, ih]
    simp [DropdownComponent.addOption]

/-- C10: every dropdown built by addDropdown offers exactly the values of
its source enumeration, in enumeration order, with the stored settings
value selected; both display versions build their view dropdown from the
four View values and their two opening-method dropdowns from the three
Mode values, each selecting the bound stored field. -/
theorem dropdowns_enumerate_source :
    (∀ (source : List String) (stored : String),
      (buildDropdown source stored).options = source ∧
      (buildDropdown source stored).selected = stored) ∧
    (∀ (wm dn wp dv : Bool) (s : ST.HomepageSettings),
      Control.dropdownCtl "Homepage view" "view" (buildDropdown View.values s.view)
        ∈ ST.display wm dn wp dv s ∧
      Control.dropdownCtl "Opening method" "openMode" (buildDropdown Mode.values s.openMode)
        ∈ ST.display wm dn wp dv s ∧
      Control.dropdownCtl "Manual opening method" "manualOpenMode"
        (buildDropdown Mode.values s.manualOpenMode) ∈ ST.display wm dn wp dv s) ∧
    (∀ (wm dn wp dv : Bool) (s : P0.HomepageSettings),
      Control.dropdownCtl "Homepage view" "view" (buildDropdown View.values s.view)
        ∈ P0.display wm dn wp dv s ∧
      Control.dropdownCtl "Opening method" "openMode" (buildDropdown Mode.values s.openMode)
        ∈ P0.display wm dn wp dv s ∧
      Control.dropdownCtl "Manual opening method" "manualOpenMode"
        (buildDropdown Mode.values s.manualOpenMode) ∈ P0.display wm dn wp dv s) := by
  refine ⟨?_, ?_, ?_⟩
  · intro source stored
    constructor
    · simp [buildDropdown, DropdownComponent.setValue, foldl_addOption_options]
    · simp [buildDropdown, DropdownComponent.setValue]
  · intro wm dn wp dv s
    cases hum : s.useMoment <;> cases wm <;> cases dn <;> cases wp <;> cases dv <;>
      simp [ST.display, hum]
  · intro wm dn wp dv s
    cases hum : s.useMoment <;> cases wm <;> cases dn <;> cases wp <;> cases dv <;>
      simp [P0.display, hum]

/-- The empty character sequence is contained in every sequence. -/
lemma containsSeq_nil_left (l : List Char) : containsSeq [] l = true := by
  cases l <;> simp [containsSeq, leadsWith]

/-- Membership in the FileSuggest accumulation loop: a file is collected
precisely when it is already accumulated, or it occurs in the remaining
vault entries as a markdown TFile whose lowercased path contains the
lowercased query. -/
lemma mem_fileSuggestFold (q : String) :
    ∀ (l : List TAbstractFile) (acc : List TFile) (f : TFile),
      f ∈ l.foldl (fun files file =>
        match file with
        | TAbstractFile.file g =>
            if g.extension = "md" && containsStr (toLowerStr g.path) (toLowerStr q) then files ++ [g]
            else files
        | TAbstractFile.folder _ => files) acc ↔
      f ∈ acc ∨ (TAbstractFile.file f ∈ l ∧ f.extension = "md" ∧
        containsStr (toLowerStr f.path) (toLowerStr q) = true) := by
  intro l
  induction l with
  | nil => intro acc f; simp
  | cons x xs ih =>
    intro acc f
    rw [List.foldl_cons, ih]
    cases x with
    | folder p => simp
    | file g =>
      cases hg : (decide (g.extension = "md") && containsStr (toLowerStr g.path) (toLowerStr q)) with
      | false =>
        simp only [hg, Bool.false_eq_true, if_false, List.mem_cons]
        constructor
        · rintro (hf | hrest)
          · exact Or.inl hf
          · exact Or.inr ⟨Or.inr hrest.1, hrest.2⟩
        · rintro (hf | ⟨hmem | hmem, hmd, hpath⟩)
          · exact Or.inl hf
          · obtain rfl : f = g := by
              cases hmem
              rfl
            simp [hmd, hpath] at hg
          · exact Or.inr ⟨hmem, hmd, hpath⟩
      | true =>
        simp only [hg, if_true, List.mem_append, List.mem_cons, List.not_mem_nil, or_false]
        rw [Bool.and_eq_true, decide_eq_true_eq] at hg
        constructor
        · rintro ((hf | rfl) | hrest)
          · exact Or.inl hf
          · exact Or.inr ⟨Or.inl rfl, hg.1, hg.2⟩
          · exact Or.inr ⟨Or.inr hrest.1, hrest.2⟩
        · rintro (hf | ⟨hmem | hmem, hmd, hpath⟩)
          · exact Or.inl (Or.inl hf)
          · obtain rfl : f = g := by
              cases hmem
              rfl
            exact Or.inl (Or.inr rfl)
          · exact Or.inr ⟨hmem, hmd, hpath⟩

/-- Membership characterisation of FileSuggest.getSuggestions. -/
lemma mem_fileGetSuggestions (files : List TAbstractFile) (q : String) (f : TFile) :
    f ∈ fileGetSuggestions files q ↔
      TAbstractFile.file f ∈ files ∧ f.extension = "md" ∧
      containsStr (toLowerStr f.path) (toLowerStr q) = true := by
  rw [fileGetSuggestions, mem_fileSuggestFold]
  simp

/-- Membership characterisation of WorkspaceSuggest.getSuggestions. -/
lemma mem_workspaceGetSuggestions (workspaces : List String) (q w : String) :
    w ∈ workspaceGetSuggestions workspaces q ↔
      w ∈ workspaces ∧ containsStr (toLowerStr w) (toLowerStr q) = true := by
  rw [workspaceGetSuggestions]
  simp [List.mem_filter]

/-- C4 counterexample: for the query "daily" and a vault holding the single
markdown file daily/note.md, FileSuggest returns that file even though its
lowercased name ("note.md") does not contain the lowercased query — the
match is against the full path, so membership is not equivalent to a
substring match on the candidate's name. -/
theorem suggestions_name_match_counterexample :
    fileGetSuggestions [TAbstractFile.file { path := "daily/note.md", extension := "md" }] "daily"
      = [{ path := "daily/note.md", extension := "md" }] ∧
    containsStr (toLowerStr (TFile.name { path := "daily/note.md", extension := "md" }))
      (toLowerStr "daily") = false := by
  decide

/-- C4 (amended): suggestion filtering returns exactly the candidates
passing a case-insensitive substring match of the query — for workspaces
against the workspace name, and for files against the file's full path
(not its name), with only markdown TFiles as candidates. -/
theorem suggestions_substring_exact :
    (∀ (workspaces : List String) (q w : String),
      w ∈ workspaceGetSuggestions workspaces q ↔
        w ∈ workspaces ∧ containsStr (toLowerStr w) (toLowerStr q) = true) ∧
    (∀ (files : List TAbstractFile) (q : String) (f : TFile),
      f ∈ fileGetSuggestions files q ↔
        TAbstractFile.file f ∈ files ∧ f.extension = "md" ∧
        containsStr (toLowerStr f.path) (toLowerStr q) = true) :=
  ⟨fun workspaces q w => mem_workspaceGetSuggestions workspaces q w,
   fun files q f => mem_fileGetSuggestions files q f⟩

/-- C9: a file is suggested by FileSuggest precisely when it occurs in the
vault as a TFile, its extension is exactly "md", and its lowercased full
path contains the lowercased query; hence non-markdown files and non-file
entries are never suggested, and the empty query suggests exactly the
markdown TFiles of the vault. -/
theorem fileSuggestions_markdown_fullpath :
    (∀ (files : List TAbstractFile) (q : String) (f : TFile),
      f ∈ fileGetSuggestions files q ↔
        TAbstractFile.file f ∈ files ∧ f.extension = "md" ∧
        containsStr (toLowerStr f.path) (toLowerStr q) = true) ∧
    (∀ (files : List TAbstractFile) (f : TFile),
      f ∈ fileGetSuggestions files "" ↔
        TAbstractFile.file f ∈ files ∧ f.extension = "md") := by
  constructor
  · exact fun files q f => mem_fileGetSuggestions files q f
  · intro files f
    rw [mem_fileGetSuggestions]
    have hempty : toLowerStr "" = "" := rfl
    rw [hempty, containsStr]
    have : ("" : String).toList = [] := rfl
    rw [this, containsSeq_nil_left]
    simp

end Homepage
